import Mathlib

/-!
Verification of the Credit_Calculator repository.

Dates are embedded as timestamps in milliseconds since the epoch (`Int`),
exactly the value JavaScript's `Date.getTime()` returns; monetary amounts
and rates are embedded as `ℚ` (the source computes with numbers and the
spec states its arithmetic identities exactly).

Namespace `App` embeds the multi-service `CreditCalculatorComponent` of
`src/src/app/app.ts`; namespace `Svc` embeds the `CreditCalculationService`
(invoice-item-credit mode).  A required form field left empty is embedded
as `Option.none`; the component's `alert`-and-return failure paths are
embedded as an `Option.none` result.
-/

namespace CreditCalc

/-- `1000 * 3600 * 24`, the divisor used in `calculateDaysBetween`. -/
def msPerDay : Int := 1000 * 3600 * 24

/-- `Math.ceil(diff / 86400000)`: the ceiling of the exact quotient, computed
with integer floor division (`ceilOfDayQuotient_eq_ceil` proves it equal to
the rational ceiling `⌈diff / msPerDay⌉`). -/
def ceilOfDayQuotient (diff : Int) : Int := -((-diff).fdiv msPerDay)

/-- `calculateDaysBetween` from the source (identical in both files):
`Math.ceil((end.getTime() - start.getTime()) / (1000*3600*24)) + 1`.
No midnight normalisation is performed; the raw timestamp difference is
divided and the ceiling taken. -/
def calculateDaysBetween (startMs endMs : Int) : Int :=
  ceilOfDayQuotient (endMs - startMs) + 1


/-- The UTC calendar day a timestamp falls on (floor division by one day). -/
def dayOf (t : Int) : Int := t.fdiv msPerDay

namespace App

/-- A row of the services form of `CreditCalculatorComponent`.  The three
date fields are text inputs; an empty field is `none`, a filled one is the
parsed timestamp. -/
structure ServiceItem where
  id : Nat
  serviceName : String
  invoiceStartDate : Option Int
  invoiceEndDate : Option Int
  pricePaid : ℚ
  actualServiceStartDate : Option Int
deriving DecidableEq

/-- Per-service output record of `calculateCredit` in `app.ts`. -/
structure CreditCalculation where
  id : Nat
  serviceName : String
  totalBillingDays : Int
  daysWithoutService : Int
  dailyRate : ℚ
  creditAmount : ℚ
  taxOnCredit : ℚ
  totalCreditWithTax : ℚ
deriving DecidableEq

/-- `CombinedCreditResult` of `app.ts`. -/
structure CombinedCreditResult where
  services : List CreditCalculation
  totalCreditAmount : ℚ
  totalTaxOnCredit : ℚ
  grandTotalWithTax : ℚ
deriving DecidableEq

/-- First validation of the loop at app.ts:134: every required field filled
and `pricePaid > 0` (`!service.serviceName || ... || service.pricePaid <= 0`
aborts). -/
def hasAllFields (s : ServiceItem) : Bool :=
  !(s.serviceName == "" || s.invoiceStartDate.isNone || s.invoiceEndDate.isNone
    || s.actualServiceStartDate.isNone || decide (s.pricePaid ≤ 0))

/-- Second validation of that loop: `invoiceStart >= invoiceEnd` aborts, so
the item passes exactly when start < end (only reached with both dates
present). -/
def datesOrdered (s : ServiceItem) : Bool :=
  match s.invoiceStartDate, s.invoiceEndDate with
  | some b, some e => decide (b < e)
  | _, _ => false

/-- The checks at app.ts:164 and app.ts:170 inside the calculation loop:
`serviceStart < invoiceStart` or `serviceStart > invoiceEnd` aborts. -/
def serviceStartInRange (s : ServiceItem) : Bool :=
  match s.invoiceStartDate, s.invoiceEndDate, s.actualServiceStartDate with
  | some b, some e, some c => decide (b ≤ c) && decide (c ≤ e)
  | _, _, _ => false

/-- The per-service arithmetic of the calculation loop (app.ts:176-203).
Only ever invoked on items whose date fields are present, so the `getD 0`
defaults are never consulted on the paths `calculateCredit` exercises. -/
def calcService (taxRate : ℚ) (s : ServiceItem) : CreditCalculation :=
  let invoiceStart := s.invoiceStartDate.getD 0
  let invoiceEnd := s.invoiceEndDate.getD 0
  let serviceStart := s.actualServiceStartDate.getD 0
  let totalBillingDays := calculateDaysBetween invoiceStart invoiceEnd
  let daysWithoutService := calculateDaysBetween invoiceStart serviceStart - 1
  let dailyRate := s.pricePaid / (totalBillingDays : ℚ)
  let creditAmount := dailyRate * ((max 0 daysWithoutService : Int) : ℚ)
  let taxOnCredit := creditAmount * (taxRate / 100)
  { id := s.id
    serviceName := s.serviceName
    totalBillingDays := totalBillingDays
    daysWithoutService := max 0 daysWithoutService
    dailyRate := dailyRate
    creditAmount := creditAmount
    taxOnCredit := taxOnCredit
    totalCreditWithTax := creditAmount + taxOnCredit }

/-- The calculation loop (app.ts:158-208): each service is range-checked and
computed in order; the first failing service aborts the whole run with no
result. -/
def processServices (taxRate : ℚ) : List ServiceItem → Option (List CreditCalculation)
  | [] => some []
  | s :: rest =>
    if serviceStartInRange s then
      (processServices taxRate rest).map (fun cs => calcService taxRate s :: cs)
    else
      none

/-- `calculateCredit` of `app.ts` (multi-service variant, lines 127-219):
an empty list aborts, then the validation loop, then the calculation loop;
on success the aggregate result is produced. -/
def calculateCredit (services : List ServiceItem) (taxRate : ℚ) :
    Option CombinedCreditResult :=
  if services.isEmpty then none
  else if services.all (fun s => hasAllFields s && datesOrdered s) then
    match processServices taxRate services with
    | none => none
    | some calcs =>
      let totalCreditAmount := (calcs.map (fun c => c.creditAmount)).sum
      let totalTaxOnCredit := (calcs.map (fun c => c.taxOnCredit)).sum
      some { services := calcs
             totalCreditAmount := totalCreditAmount
             totalTaxOnCredit := totalTaxOnCredit
             grandTotalWithTax := totalCreditAmount + totalTaxOnCredit }
  else none

/-- An item offending one of the five checks of the spec: a missing required
field, `pricePaid ≤ 0`, billing period end ≤ start, service start strictly
before the billing start, or strictly after the billing end. -/
def itemInvalid (s : ServiceItem) : Bool :=
  s.serviceName == "" || s.invoiceStartDate.isNone || s.invoiceEndDate.isNone
  || s.actualServiceStartDate.isNone || decide (s.pricePaid ≤ 0)
  || (match s.invoiceStartDate, s.invoiceEndDate with
      | some b, some e => decide (e ≤ b)
      | _, _ => false)
  || (match s.invoiceStartDate, s.actualServiceStartDate with
      | some b, some c => decide (c < b)
      | _, _ => false)
  || (match s.invoiceEndDate, s.actualServiceStartDate with
      | some e, some c => decide (e < c)
      | _, _ => false)

end App

namespace Svc

/-- `InvoiceItem` of `invoice.model.ts` (fields the calculation reads). -/
structure InvoiceItem where
  id : String
  unitPrice : ℚ
  quantity : ℚ
  serviceStartDate : Int
  serviceEndDate : Int
deriving DecidableEq

/-- `CreditRequest` of `invoice.model.ts` (fields the calculation reads);
the optional credit dates are `Option`. -/
structure CreditRequest where
  itemsToCredit : List String
  creditStartDate : Option Int
  creditEndDate : Option Int
  isPartialCredit : Bool
deriving DecidableEq

/-- `CreditCalculation` of `invoice.model.ts`. -/
structure CreditCalculation where
  originalAmount : ℚ
  proratedAmount : ℚ
  creditAmount : ℚ
  taxOnCredit : ℚ
  totalCreditWithTax : ℚ
  creditPercentage : ℚ
  daysInBillingPeriod : Int
  daysCredited : Int
deriving DecidableEq

/-- `Invoice` of `invoice.model.ts` (fields the calculation reads). -/
structure Invoice where
  items : List InvoiceItem
  taxRate : ℚ
deriving DecidableEq

/-- `CreditResult` of `invoice.model.ts` (fields the calculation writes,
without the echoed request and the wall-clock `calculationDate`). -/
structure CreditResult where
  calculations : List CreditCalculation
  totalCredit : ℚ
  totalTax : ℚ
  finalCreditAmount : ℚ
deriving DecidableEq

/-- `CreditCalculationService.calculateItemCredit`: the prorated branch runs
exactly when `creditRequest.isPartialCredit && creditRequest.creditStartDate
&& creditRequest.creditEndDate`; otherwise the full-credit branch. -/
def calculateItemCredit (item : InvoiceItem) (req : CreditRequest) (taxRate : ℚ) :
    CreditCalculation :=
  let originalAmount := item.unitPrice * item.quantity
  match req.isPartialCredit, req.creditStartDate, req.creditEndDate with
  | true, some cs, some ce =>
    let billingPeriodDays := calculateDaysBetween item.serviceStartDate item.serviceEndDate
    let creditDays := calculateDaysBetween cs ce
    let creditPercentage := (creditDays : ℚ) / (billingPeriodDays : ℚ)
    let proratedAmount := originalAmount * creditPercentage
    let creditAmount := proratedAmount
    let taxOnCredit := creditAmount * (taxRate / 100)
    { originalAmount := originalAmount
      proratedAmount := proratedAmount
      creditAmount := creditAmount
      taxOnCredit := taxOnCredit
      totalCreditWithTax := creditAmount + taxOnCredit
      creditPercentage := creditPercentage
      daysInBillingPeriod := billingPeriodDays
      daysCredited := creditDays }
  | _, _, _ =>
    let daysInBillingPeriod := calculateDaysBetween item.serviceStartDate item.serviceEndDate
    let taxOnCredit := originalAmount * (taxRate / 100)
    { originalAmount := originalAmount
      proratedAmount := originalAmount
      creditAmount := originalAmount
      taxOnCredit := taxOnCredit
      totalCreditWithTax := originalAmount + taxOnCredit
      creditPercentage := 1
      daysInBillingPeriod := daysInBillingPeriod
      daysCredited := daysInBillingPeriod }

/-- `CreditCalculationService.calculateCredit`: each id of `itemsToCredit` is
looked up among the invoice items; a hit is calculated and pushed, a miss is
skipped; then the totals are summed. -/
def calculateCredit (invoice : Invoice) (req : CreditRequest) : CreditResult :=
  let calculations := req.itemsToCredit.filterMap fun itemId =>
    (invoice.items.find? fun i => i.id == itemId).map
      fun item => calculateItemCredit item req invoice.taxRate
  let totalCredit := (calculations.map (fun c => c.creditAmount)).sum
  let totalTax := (calculations.map (fun c => c.taxOnCredit)).sum
  { calculations := calculations
    totalCredit := totalCredit
    totalTax := totalTax
    finalCreditAmount := totalCredit + totalTax }

end Svc

/-- A concrete valid service row: a 31-day billing period starting at epoch
day 0, price 31, service first available on day 9. -/
def sampleItem : App.ServiceItem :=
  { id := 1, serviceName := "net", invoiceStartDate := some 0
    invoiceEndDate := some (30 * msPerDay), pricePaid := 31
    actualServiceStartDate := some (9 * msPerDay) }

/-- The result `calculateCredit [sampleItem] 100` produces (tax rate 100 %):
31 billing days, 9 unserved days, daily rate 1. -/
def sampleResult : App.CombinedCreditResult :=
  { services := [{ id := 1, serviceName := "net", totalBillingDays := 31,
                   daysWithoutService := 9, dailyRate := 1, creditAmount := 9,
                   taxOnCredit := 9, totalCreditWithTax := 18 }],
    totalCreditAmount := 9, totalTaxOnCredit := 9, grandTotalWithTax := 18 }

/-- A concrete invoice item: a 31-day service period, 80 a month. -/
def sampleInvoiceItem : Svc.InvoiceItem :=
  { id := "ITEM-001", unitPrice := 80, quantity := 1,
    serviceStartDate := 0, serviceEndDate := 30 * msPerDay }

/-- A one-item invoice at 13 % tax. -/
def sampleInvoice : Svc.Invoice :=
  { items := [sampleInvoiceItem], taxRate := 13 }

/-- A partial-credit request for the first 10 calendar days. -/
def samplePartialRequest : Svc.CreditRequest :=
  { itemsToCredit := ["ITEM-001"], creditStartDate := some 0,
    creditEndDate := some (9 * msPerDay), isPartialCredit := true }

/-- A request flagged partial but missing its credit end date. -/
def sampleHalfRequest : Svc.CreditRequest :=
  { itemsToCredit := ["ITEM-001"], creditStartDate := some 0,
    creditEndDate := none, isPartialCredit := true }

theorem ceilOfDayQuotient_eq_ceil (a : Int) :
    ceilOfDayQuotient a = ⌈(a : ℚ) / (msPerDay : ℚ)⌉ := by
  have hd : ((86400000 : ℕ) : ℤ) = msPerDay := by norm_num [msPerDay]
  have h1 : (-a).fdiv msPerDay = (-a) / msPerDay :=
    Int.fdiv_eq_ediv _ (by norm_num [msPerDay])
  have h2 : ⌊((-a : ℤ) : ℚ) / ((86400000 : ℕ) : ℚ)⌋ = (-a) / ((86400000 : ℕ) : ℤ) :=
    Rat.floor_intCast_div_natCast (-a) 86400000
  have h3 : ((-a : ℤ) : ℚ) / ((86400000 : ℕ) : ℚ) = -((a : ℚ) / (msPerDay : ℚ)) := by
    have : ((86400000 : ℕ) : ℚ) = (msPerDay : ℚ) := by norm_num [msPerDay]
    rw [this]
    push_cast
    ring
  calc ceilOfDayQuotient a = -((-a) / msPerDay) := by rw [ceilOfDayQuotient, h1]
    _ = -⌊((-a : ℤ) : ℚ) / ((86400000 : ℕ) : ℚ)⌋ := by rw [h2, hd]
    _ = -⌊-((a : ℚ) / (msPerDay : ℚ))⌋ := by rw [h3]
    _ = ⌈(a : ℚ) / (msPerDay : ℚ)⌉ := by rw [Int.floor_neg, neg_neg]

theorem msPerDay_pos : (0 : Int) < msPerDay := by decide

theorem calculateDaysBetween_self (d : Int) : calculateDaysBetween d d = 1 := by
  simp [calculateDaysBetween, ceilOfDayQuotient]

theorem ceilOfDayQuotient_nonneg {a : Int} (h : 0 ≤ a) : 0 ≤ ceilOfDayQuotient a := by
  rw [ceilOfDayQuotient_eq_ceil]
  have hd : (0 : ℚ) ≤ (msPerDay : ℚ) := by exact_mod_cast msPerDay_pos.le
  exact Int.ceil_nonneg (div_nonneg (by exact_mod_cast h) hd)

theorem ceilOfDayQuotient_pos {a : Int} (h : 0 < a) : 1 ≤ ceilOfDayQuotient a := by
  rw [ceilOfDayQuotient_eq_ceil]
  have hd : (0 : ℚ) < (msPerDay : ℚ) := by exact_mod_cast msPerDay_pos
  exact Int.ceil_pos.mpr (div_pos (by exact_mod_cast h) hd)

theorem ceilOfDayQuotient_mono {a b : Int} (h : a ≤ b) :
    ceilOfDayQuotient a ≤ ceilOfDayQuotient b := by
  rw [ceilOfDayQuotient_eq_ceil, ceilOfDayQuotient_eq_ceil]
  have hd : (0 : ℚ) < (msPerDay : ℚ) := by exact_mod_cast msPerDay_pos
  exact Int.ceil_le_ceil (by
    apply div_le_div_of_nonneg_right ?_ hd.le
    exact_mod_cast h)

namespace App

theorem itemInvalid_eq_false_iff (s : ServiceItem) :
    itemInvalid s = false ↔
      (hasAllFields s && datesOrdered s && serviceStartInRange s) = true := by
  rcases s with ⟨id, name, ib, ie, p, ss⟩
  rcases ib with _ | b <;> rcases ie with _ | e <;> rcases ss with _ | c <;>
    (simp [itemInvalid, hasAllFields, datesOrdered, serviceStartInRange, not_lt, not_le];
     all_goals tauto)

/-- Unpacking a valid item: all fields present, positive price, ordered
billing period, service start inside it. -/
theorem valid_fields {s : ServiceItem} (hv : itemInvalid s = false) :
    ∃ b e c, s.invoiceStartDate = some b ∧ s.invoiceEndDate = some e ∧
      s.actualServiceStartDate = some c ∧ ¬ s.serviceName = "" ∧
      0 < s.pricePaid ∧ b < e ∧ b ≤ c ∧ c ≤ e := by
  rw [itemInvalid_eq_false_iff] at hv
  rcases s with ⟨id, name, ib, ie, p, ss⟩
  rcases ib with _ | b <;> rcases ie with _ | e <;> rcases ss with _ | c <;>
    (simp [hasAllFields, datesOrdered, serviceStartInRange, not_lt, not_le] at hv ⊢;
     all_goals tauto)

theorem processServices_eq_none_iff (τ : ℚ) (l : List ServiceItem) :
    processServices τ l = none ↔ ∃ s ∈ l, serviceStartInRange s = false := by
  induction l with
  | nil => simp [processServices]
  | cons s rest ih =>
    by_cases h : serviceStartInRange s
    · cases hp : processServices τ rest <;>
        simp [processServices, h, hp, ← ih]
    · simp only [Bool.not_eq_true] at h
      simp [processServices, h]

theorem processServices_eq_some {τ : ℚ} {l : List ServiceItem}
    {cs : List CreditCalculation} (h : processServices τ l = some cs) :
    cs = l.map (calcService τ) := by
  induction l generalizing cs with
  | nil => simp [processServices] at h; simp [h]
  | cons s rest ih =>
    by_cases hr : serviceStartInRange s
    · cases hp : processServices τ rest with
      | none => rw [processServices, if_pos hr, hp] at h; simp at h
      | some cs0 =>
        rw [processServices, if_pos hr, hp] at h
        have h2 : calcService τ s :: cs0 = cs := by simpa using h
        subst h2
        simp [ih hp]
    · simp only [Bool.not_eq_true] at hr
      simp [processServices, hr] at h

theorem invalid_of_not_phase1 {s : ServiceItem}
    (h : ¬ (hasAllFields s && datesOrdered s) = true) : itemInvalid s = true := by
  by_contra hne
  simp only [Bool.not_eq_true] at hne
  rw [itemInvalid_eq_false_iff] at hne
  simp only [Bool.and_eq_true] at hne
  exact h (by simp [hne.1.1, hne.1.2])

theorem invalid_of_not_range {s : ServiceItem}
    (h : serviceStartInRange s = false) : itemInvalid s = true := by
  by_contra hne
  simp only [Bool.not_eq_true] at hne
  rw [itemInvalid_eq_false_iff] at hne
  simp only [Bool.and_eq_true] at hne
  rw [hne.2] at h
  cases h

theorem calculateCredit_eq_none_iff (l : List ServiceItem) (τ : ℚ) :
    calculateCredit l τ = none ↔ l = [] ∨ ∃ s ∈ l, itemInvalid s = true := by
  rcases l with _ | ⟨s0, rest⟩
  · simp [calculateCredit]
  by_cases hall : (s0 :: rest).all (fun s => hasAllFields s && datesOrdered s) = true
  · have key : calculateCredit (s0 :: rest) τ = none ↔
        processServices τ (s0 :: rest) = none := by
      rw [calculateCredit]
      simp only [List.isEmpty_cons, hall]
      cases hp : processServices τ (s0 :: rest) <;> simp [hp]
    rw [key, processServices_eq_none_iff]
    rw [List.all_eq_true] at hall
    simp only [List.cons_ne_nil, false_or]
    constructor
    · rintro ⟨s, hs, hrange⟩
      exact ⟨s, hs, invalid_of_not_range hrange⟩
    · rintro ⟨s, hs, hinv⟩
      refine ⟨s, hs, ?_⟩
      by_contra hne
      simp only [Bool.not_eq_false] at hne
      have : itemInvalid s = false := by
        rw [itemInvalid_eq_false_iff]
        simp [hall s hs, hne]
      rw [this] at hinv
      cases hinv
  · have hall2 : ¬ ((s0 :: rest).all fun s => hasAllFields s && datesOrdered s) = true := hall
    simp only [Bool.not_eq_true] at hall
    have key : calculateCredit (s0 :: rest) τ = none := by
      rw [calculateCredit]
      simp [hall]
    rw [key]
    simp only [List.cons_ne_nil, false_or, true_iff]
    rw [List.all_eq_true] at hall2
    push_neg at hall2
    obtain ⟨s, hs, hne⟩ := hall2
    exact ⟨s, hs, invalid_of_not_phase1 hne⟩

end App

theorem App.calculateCredit_some_eq {l : List App.ServiceItem} {τ : ℚ}
    {r : App.CombinedCreditResult} (h : App.calculateCredit l τ = some r) :
    r = { services := l.map (App.calcService τ),
          totalCreditAmount := (l.map fun s => (App.calcService τ s).creditAmount).sum,
          totalTaxOnCredit := (l.map fun s => (App.calcService τ s).taxOnCredit).sum,
          grandTotalWithTax :=
            (l.map fun s => (App.calcService τ s).creditAmount).sum +
            (l.map fun s => (App.calcService τ s).taxOnCredit).sum } := by
  rw [App.calculateCredit] at h
  by_cases h1 : l.isEmpty = true
  · rw [if_pos h1] at h; cases h
  rw [if_neg h1] at h
  by_cases h2 : (l.all fun s => App.hasAllFields s && App.datesOrdered s) = true
  · rw [if_pos h2] at h
    cases hp : App.processServices τ l with
    | none => rw [hp] at h; cases h
    | some cs =>
      rw [hp] at h
      have hcs := App.processServices_eq_some hp
      subst hcs
      simp only [Option.some_inj] at h
      subst h
      simp [List.map_map, Function.comp_def]
  · rw [if_neg h2] at h; cases h

theorem sampleCalculation : App.calculateCredit [sampleItem] 100 = some sampleResult := by
  norm_num [App.calculateCredit, App.processServices, App.calcService, App.hasAllFields,
    App.datesOrdered, App.serviceStartInRange, sampleItem, sampleResult,
    calculateDaysBetween, ceilOfDayQuotient, msPerDay,
    show ((-2592000000 : Int)).fdiv 86400000 = -30 from by decide,
    show ((-777600000 : Int)).fdiv 86400000 = -9 from by decide]
  exact fun h => absurd h (by decide)

/-- C1 counterexample: the empty service list offends none of the five
validation checks, yet `calculateCredit` produces no result (the component
aborts with `Please add at least one service`). -/
theorem claim_C1_counterexample :
    App.calculateCredit [] 13 = none ∧
      ∀ s ∈ ([] : List App.ServiceItem), ¬ App.itemInvalid s = true :=
  ⟨rfl, by simp⟩

/-- C1 (amended): `calculateCredit` fails, producing no result, iff the item
list is empty or some item offends one of the five checks — a missing
required field (name, price, either billing-period date, or the
actual-service-start date), `pricePaid ≤ 0`, billing period end ≤ start,
service start strictly before the billing start, or strictly after the
billing end; every nonempty list whose items pass all five checks yields a
result. -/
theorem claim_C1_validation (l : List App.ServiceItem) (τ : ℚ) :
    App.calculateCredit l τ = none ↔ l = [] ∨ ∃ s ∈ l, App.itemInvalid s = true :=
  App.calculateCredit_eq_none_iff l τ

theorem claim_C1_witness : ¬ App.calculateCredit [sampleItem] 100 = none := by
  intro h
  rcases (claim_C1_validation [sampleItem] 100).mp h with h1 | ⟨s, hs, hinv⟩
  · cases h1
  · rw [List.mem_singleton] at hs
    subst hs
    exact absurd hinv (by decide)

/-- C2: for a valid item the recorded `daysWithoutService` is
`max 0 (daysBetween billingStart serviceStart − 1)`; when the service
starts on the billing start date it is `0` and the credit is `0`. -/
theorem claim_C2_daysWithoutService (τ : ℚ) (s : App.ServiceItem) (b c : Int)
    (_hv : App.itemInvalid s = false)
    (hb : s.invoiceStartDate = some b) (hc : s.actualServiceStartDate = some c) :
    (App.calcService τ s).daysWithoutService = max 0 (calculateDaysBetween b c - 1) ∧
    (c = b → (App.calcService τ s).daysWithoutService = 0 ∧
      (App.calcService τ s).creditAmount = 0) := by
  refine ⟨by simp [App.calcService, hb, hc], ?_⟩
  rintro rfl
  constructor
  · simp [App.calcService, hb, hc, calculateDaysBetween_self]
  · simp [App.calcService, hb, hc, calculateDaysBetween_self]

theorem claim_C2_witness :
    (App.calcService 13 sampleItem).daysWithoutService =
      max 0 (calculateDaysBetween 0 (9 * msPerDay) - 1) :=
  (claim_C2_daysWithoutService 13 sampleItem 0 (9 * msPerDay) (by decide) rfl rfl).1

/-- C3: invariants of every calculation produced for a valid item:
`totalBillingDays ≥ 1`, `0 ≤ daysWithoutService ≤ totalBillingDays`,
`dailyRate = pricePaid / totalBillingDays`,
`creditAmount = dailyRate × daysWithoutService`,
`taxOnCredit = creditAmount × (taxRate / 100)` and
`totalCreditWithTax = creditAmount + taxOnCredit`, exactly, for any
non-negative tax rate. -/
theorem claim_C3_invariants (τ : ℚ) (s : App.ServiceItem)
    (_hτ : 0 ≤ τ) (hv : App.itemInvalid s = false) :
    1 ≤ (App.calcService τ s).totalBillingDays ∧
    0 ≤ (App.calcService τ s).daysWithoutService ∧
    (App.calcService τ s).daysWithoutService ≤ (App.calcService τ s).totalBillingDays ∧
    (App.calcService τ s).dailyRate =
      s.pricePaid / ((App.calcService τ s).totalBillingDays : ℚ) ∧
    (App.calcService τ s).creditAmount =
      (App.calcService τ s).dailyRate * ((App.calcService τ s).daysWithoutService : ℚ) ∧
    (App.calcService τ s).taxOnCredit = (App.calcService τ s).creditAmount * (τ / 100) ∧
    (App.calcService τ s).totalCreditWithTax =
      (App.calcService τ s).creditAmount + (App.calcService τ s).taxOnCredit := by
  obtain ⟨b, e, c, hb, he, hc, hname, hp, hbe, hbc, hce⟩ := App.valid_fields hv
  have h1 : 1 ≤ ceilOfDayQuotient (e - b) := ceilOfDayQuotient_pos (by omega)
  have h2 : ceilOfDayQuotient (c - b) ≤ ceilOfDayQuotient (e - b) :=
    ceilOfDayQuotient_mono (by omega)
  simp only [App.calcService, hb, he, hc, Option.getD_some, calculateDaysBetween]
  refine ⟨by omega, le_max_left _ _, ?_, by trivial, by trivial, by trivial, by trivial⟩
  rw [max_le_iff]
  omega

theorem claim_C3_witness :
    1 ≤ (App.calcService 13 sampleItem).totalBillingDays ∧
    (App.calcService 13 sampleItem).daysWithoutService ≤
      (App.calcService 13 sampleItem).totalBillingDays :=
  ⟨(claim_C3_invariants 13 sampleItem (by decide) (by decide)).1,
   (claim_C3_invariants 13 sampleItem (by decide) (by decide)).2.2.1⟩

/-- C4: `calculateDaysBetween` is the inclusive day count
`⌈(end − start) in days⌉ + 1`; hence a single-day span counts 1 and the
count is at least 1 whenever end ≥ start. -/
theorem claim_C4_daysBetween (s e : Int) :
    calculateDaysBetween s e = ⌈((e - s : Int) : ℚ) / (msPerDay : ℚ)⌉ + 1 ∧
    calculateDaysBetween s s = 1 ∧
    (s ≤ e → 1 ≤ calculateDaysBetween s e) := by
  refine ⟨?_, calculateDaysBetween_self s, ?_⟩
  · rw [calculateDaysBetween, ceilOfDayQuotient_eq_ceil]
  · intro h
    have := ceilOfDayQuotient_nonneg (sub_nonneg.mpr h)
    rw [calculateDaysBetween]
    omega

theorem claim_C4_witness :
    calculateDaysBetween 5 5 = 1 ∧ 1 ≤ calculateDaysBetween 0 86400000 :=
  ⟨(claim_C4_daysBetween 5 5).2.1, (claim_C4_daysBetween 0 86400000).2.2 (by decide)⟩

/-- C5: a successful run yields one calculation per input item in input
order, the totals are the sums of the per-item values, the grand total is
the sum of both, and the grand total is invariant under permuting the
input list. -/
theorem claim_C5_aggregation (l : List App.ServiceItem) (τ : ℚ)
    (r : App.CombinedCreditResult) (h : App.calculateCredit l τ = some r) :
    r.services = l.map (App.calcService τ) ∧
    r.totalCreditAmount = (l.map fun s => (App.calcService τ s).creditAmount).sum ∧
    r.totalTaxOnCredit = (l.map fun s => (App.calcService τ s).taxOnCredit).sum ∧
    r.grandTotalWithTax =
      (l.map fun s => (App.calcService τ s).creditAmount).sum +
      (l.map fun s => (App.calcService τ s).taxOnCredit).sum ∧
    (∀ l2 r2, l.Perm l2 → App.calculateCredit l2 τ = some r2 →
      r2.grandTotalWithTax = r.grandTotalWithTax) := by
  have he := App.calculateCredit_some_eq h
  subst he
  refine ⟨rfl, rfl, rfl, rfl, ?_⟩
  intro l2 r2 hperm h2
  have he2 := App.calculateCredit_some_eq h2
  subst he2
  have e1 : (l2.map fun s => (App.calcService τ s).creditAmount).sum =
      (l.map fun s => (App.calcService τ s).creditAmount).sum :=
    ((hperm.map fun s => (App.calcService τ s).creditAmount).sum_eq).symm
  have e2 : (l2.map fun s => (App.calcService τ s).taxOnCredit).sum =
      (l.map fun s => (App.calcService τ s).taxOnCredit).sum :=
    ((hperm.map fun s => (App.calcService τ s).taxOnCredit).sum_eq).symm
  show (l2.map fun s => (App.calcService τ s).creditAmount).sum +
      (l2.map fun s => (App.calcService τ s).taxOnCredit).sum =
    (l.map fun s => (App.calcService τ s).creditAmount).sum +
      (l.map fun s => (App.calcService τ s).taxOnCredit).sum
  rw [e1, e2]

theorem claim_C5_witness :
    sampleResult.services = [sampleItem].map (App.calcService 100) ∧
    sampleResult.grandTotalWithTax =
      ([sampleItem].map fun s => (App.calcService 100 s).creditAmount).sum +
      ([sampleItem].map fun s => (App.calcService 100 s).taxOnCredit).sum :=
  ⟨(claim_C5_aggregation [sampleItem] 100 sampleResult sampleCalculation).1,
   (claim_C5_aggregation [sampleItem] 100 sampleResult sampleCalculation).2.2.2.1⟩

/-- C6: for a valid item whose recorded `daysWithoutService` is at most its
`totalBillingDays`, the credit never exceeds the price paid. -/
theorem claim_C6_credit_le_price (τ : ℚ) (s : App.ServiceItem)
    (hv : App.itemInvalid s = false)
    (hdw : (App.calcService τ s).daysWithoutService ≤
      (App.calcService τ s).totalBillingDays) :
    (App.calcService τ s).creditAmount ≤ s.pricePaid := by
  obtain ⟨b, e, c, hb, he, hc, hname, hp, hbe, hbc, hce⟩ := App.valid_fields hv
  simp only [App.calcService, hb, he, hc, Option.getD_some, calculateDaysBetween] at hdw ⊢
  have h1 : 1 ≤ ceilOfDayQuotient (e - b) := ceilOfDayQuotient_pos (by omega)
  have hT : (0 : ℚ) < ((ceilOfDayQuotient (e - b) + 1 : Int) : ℚ) := by
    exact_mod_cast by omega
  have hrate : 0 ≤ s.pricePaid / ((ceilOfDayQuotient (e - b) + 1 : Int) : ℚ) :=
    div_nonneg hp.le hT.le
  calc s.pricePaid / ((ceilOfDayQuotient (e - b) + 1 : Int) : ℚ) *
        ((max 0 (ceilOfDayQuotient (c - b) + 1 - 1) : Int) : ℚ)
      ≤ s.pricePaid / ((ceilOfDayQuotient (e - b) + 1 : Int) : ℚ) *
        ((ceilOfDayQuotient (e - b) + 1 : Int) : ℚ) := by
        apply mul_le_mul_of_nonneg_left ?_ hrate
        exact_mod_cast hdw
    _ = s.pricePaid := div_mul_cancel₀ _ hT.ne'

theorem claim_C6_witness : (App.calcService 13 sampleItem).creditAmount ≤ 31 :=
  claim_C6_credit_le_price 13 sampleItem (by decide) (by decide)

theorem Svc.itemCredit_ignores_ids (item : Svc.InvoiceItem) (req : Svc.CreditRequest)
    (ids : List String) (τ : ℚ) :
    Svc.calculateItemCredit item { req with itemsToCredit := ids } τ =
      Svc.calculateItemCredit item req τ := by
  rcases req with ⟨a, b, c, d⟩
  rfl

theorem length_filterMap_eq {α β : Type} (f : α → Option β) (l : List α) :
    (l.filterMap f).length = (l.filter fun x => (f x).isSome).length := by
  induction l with
  | nil => rfl
  | cons x xs ih => cases hf : f x <;> simp [List.filterMap_cons, List.filter_cons, hf, ih]

theorem find?_isSome_eq_any {α : Type} (p : α → Bool) (l : List α) :
    (l.find? p).isSome = l.any p := by
  induction l with
  | nil => rfl
  | cons x xs ih => by_cases h : p x <;> simp [List.find?_cons, h, ih]

/-- C7: in the invoice-item-credit mode an explicit partial period yields
`creditAmount = originalAmount × (creditDays / billingDays)` with both day
counts computed by the shared `calculateDaysBetween`; with no partial
specification the item is fully credited: `creditAmount = originalAmount`
and `creditPercentage = 1`. -/
theorem claim_C7_prorating_modes (item : Svc.InvoiceItem) (req : Svc.CreditRequest)
    (τ : ℚ) :
    (∀ cs ce, req.isPartialCredit = true → req.creditStartDate = some cs →
      req.creditEndDate = some ce →
      (Svc.calculateItemCredit item req τ).creditAmount =
        item.unitPrice * item.quantity *
          ((calculateDaysBetween cs ce : ℚ) /
            (calculateDaysBetween item.serviceStartDate item.serviceEndDate : ℚ))) ∧
    (req.isPartialCredit = false →
      (Svc.calculateItemCredit item req τ).creditAmount =
        item.unitPrice * item.quantity ∧
      (Svc.calculateItemCredit item req τ).creditPercentage = 1) := by
  rcases req with ⟨ids, ocs, oce, part⟩
  constructor
  · rintro cs ce hp rfl rfl
    subst hp
    simp [Svc.calculateItemCredit]
  · rintro hp
    subst hp
    simp [Svc.calculateItemCredit]

theorem claim_C7_witness :
    (Svc.calculateItemCredit sampleInvoiceItem samplePartialRequest 13).creditAmount =
      sampleInvoiceItem.unitPrice * sampleInvoiceItem.quantity *
        ((calculateDaysBetween 0 (9 * msPerDay) : ℚ) /
          (calculateDaysBetween sampleInvoiceItem.serviceStartDate
              sampleInvoiceItem.serviceEndDate : ℚ)) :=
  (claim_C7_prorating_modes sampleInvoiceItem samplePartialRequest 13).1
    0 (9 * msPerDay) rfl rfl rfl

/-- C8 counterexample: midnight and noon of epoch day 0 fall on the same
calendar day, yet `calculateDaysBetween` maps the pair (midnight, noon) to
2 and the pair (midnight, midnight) to 1 — the times of day are not
normalized away. -/
theorem claim_C8_counterexample :
    dayOf 43200000 = dayOf 0 ∧
      ¬ calculateDaysBetween 0 43200000 = calculateDaysBetween 0 0 := by decide

/-- C8 (amended): `calculateDaysBetween` performs no midnight normalization
— it takes the ceiling of the raw timestamp difference in days plus one, so
inputs on the same calendar days but at different times of day can change
the count (see the counterexample); for inputs already at midnight the
result is exactly the calendar-day difference plus one. -/
theorem claim_C8_midnight_inputs (t1 t2 : Int)
    (h1 : msPerDay ∣ t1) (h2 : msPerDay ∣ t2) :
    calculateDaysBetween t1 t2 = dayOf t2 - dayOf t1 + 1 := by
  obtain ⟨a, rfl⟩ := h1
  obtain ⟨b, rfl⟩ := h2
  have hm : msPerDay ≠ 0 := by decide
  have hd1 : dayOf (msPerDay * a) = a := by
    rw [dayOf, Int.mul_fdiv_cancel_left _ hm]
  have hd2 : dayOf (msPerDay * b) = b := by
    rw [dayOf, Int.mul_fdiv_cancel_left _ hm]
  have hq : ceilOfDayQuotient (msPerDay * b - msPerDay * a) = b - a := by
    have hneg : -(msPerDay * b - msPerDay * a) = msPerDay * (a - b) := by ring
    rw [ceilOfDayQuotient, hneg, Int.mul_fdiv_cancel_left _ hm]
    ring
  rw [calculateDaysBetween, hq, hd1, hd2]

theorem claim_C8_witness :
    calculateDaysBetween 0 86400000 = dayOf 86400000 - dayOf 0 + 1 :=
  claim_C8_midnight_inputs 0 86400000 ⟨0, by decide⟩ ⟨1, by decide⟩

/-- C9: in the invoice-item-credit mode an identifier matching no invoice
item is silently skipped — `calculateCredit` always returns a result whose
calculations list has exactly one entry per identifier of `itemsToCredit`
that occurs among `invoice.items`, in `itemsToCredit` order, and inserting
an unmatched identifier leaves the calculations unchanged. -/
theorem claim_C9_unmatched_skipped (inv : Svc.Invoice) (req : Svc.CreditRequest) :
    (Svc.calculateCredit inv req).calculations.length =
      (req.itemsToCredit.filter fun i => inv.items.any fun it => it.id == i).length ∧
    (Svc.calculateCredit inv req).calculations =
      (req.itemsToCredit.filterMap fun i => inv.items.find? fun it => it.id == i).map
        (fun item => Svc.calculateItemCredit item req inv.taxRate) ∧
    ∀ pre post x, (∀ it ∈ inv.items, ¬ it.id = x) →
      (Svc.calculateCredit inv
          { req with itemsToCredit := pre ++ x :: post }).calculations =
        (Svc.calculateCredit inv
          { req with itemsToCredit := pre ++ post }).calculations := by
  refine ⟨?_, ?_, ?_⟩
  · simp only [Svc.calculateCredit]
    rw [length_filterMap_eq]
    congr 1
    apply List.filter_congr
    intro i _
    rw [← find?_isSome_eq_any]
    cases List.find? (fun it => it.id == i) inv.items <;> rfl
  · simp only [Svc.calculateCredit]
    exact (List.map_filterMap _ _ _).symm
  · intro pre post x hx
    have hfind : (inv.items.find? fun it => it.id == x) = none := by
      rw [List.find?_eq_none]
      intro it hit
      simpa using hx it hit
    simp [Svc.calculateCredit, Svc.itemCredit_ignores_ids,
      List.filterMap_append, List.filterMap_cons, hfind]

theorem claim_C9_witness :
    (Svc.calculateCredit sampleInvoice
        { samplePartialRequest with
            itemsToCredit := ["ITEM-001"] ++ "MISSING" :: [] }).calculations =
      (Svc.calculateCredit sampleInvoice
        { samplePartialRequest with
            itemsToCredit := ["ITEM-001"] ++ [] }).calculations :=
  (claim_C9_unmatched_skipped sampleInvoice samplePartialRequest).2.2
    ["ITEM-001"] [] "MISSING" (by decide)

/-- C10: a request flagged partial but missing either credit date is
treated as a full credit: `creditPercentage = 1`,
`creditAmount = originalAmount` and `daysCredited = daysInBillingPeriod`. -/
theorem claim_C10_partial_missing_dates (item : Svc.InvoiceItem)
    (req : Svc.CreditRequest) (τ : ℚ)
    (hp : req.isPartialCredit = true)
    (hmiss : req.creditStartDate = none ∨ req.creditEndDate = none) :
    (Svc.calculateItemCredit item req τ).creditPercentage = 1 ∧
    (Svc.calculateItemCredit item req τ).creditAmount =
      item.unitPrice * item.quantity ∧
    (Svc.calculateItemCredit item req τ).daysCredited =
      (Svc.calculateItemCredit item req τ).daysInBillingPeriod := by
  rcases req with ⟨ids, ocs, oce, part⟩
  subst hp
  rcases hmiss with h | h
  · subst h
    simp [Svc.calculateItemCredit]
  · subst h
    rcases ocs with _ | cs <;> simp [Svc.calculateItemCredit]

theorem claim_C10_witness :
    (Svc.calculateItemCredit sampleInvoiceItem sampleHalfRequest 13).creditPercentage = 1 :=
  (claim_C10_partial_missing_dates sampleInvoiceItem sampleHalfRequest 13 rfl
    (Or.inr rfl)).1

end CreditCalc
